import Mathlib

/-!
Verification of the todo-app offline queue, identity reconciliation, and
task-ranking code.

The development shallowly embeds the relevant source files:

* `src/TodoApp/src/utils/taskSorting.ts` — the client ranking function
  (`getPriorityScore`, `getUrgencyScore`, `getRecencyScore`, `smartSortTasks`).
  JavaScript dates are modelled as rational millisecond timestamps; the float
  arithmetic of the scores is modelled over `ℚ` (all constants involved are
  small decimal fractions, and every comparison the claims depend on is exact
  at these magnitudes).  `Array.prototype.sort` with a comparator is modelled
  as a stable merge sort ordered by `comparator a b ≤ 0`.
* `src/backend/src/models/Task.ts` — the server aggregation
  (`getSmartSortedTasks`) and the `pre-save` hook maintaining
  `completedAt`.  the ascending MongoDB BSON string comparison is modelled as
  lexicographic comparison of code points (identical to UTF-8 byte order on
  the ASCII status strings involved).
* `src/unnamed/part_001` — the task route handlers (`completeTask` uses
  `findOneAndUpdate`, which runs no document `save` middleware, so the
  pre-save hook is modelled as *not* applied on that path).
* `src/unnamed/part_005` — the offline queue (`addToOfflineQueue`,
  `processOfflineQueue`, `updateCachedTasksWithRealIds`).  `AsyncStorage` is
  modelled as an explicit store value; a remote call of one drain pass is
  modelled by an oracle giving the response envelope of each call.
-/

/-! ## Client task model and ranking (`src/TodoApp/src/utils/taskSorting.ts`) -/

/-- A client-side `Task` (`src/unnamed/part_003`).  Date-valued fields
(`dueDate`, `createdAt`, `updatedAt`) are millisecond timestamps; `priority`
and `status` keep their string representations (`low|medium|high`,
`pending|in_progress|completed`), since the TypeScript code compares
them as strings and malformed values are possible at runtime. -/
structure CTask where
  _id : String
  title : String
  description : String
  priority : String
  status : String
  dueDate : ℚ
  category : String
  createdAt : ℚ
  updatedAt : ℚ
deriving DecidableEq

/-- Function `getPriorityScore` from `taskSorting.ts`: `high → 3`, `medium → 2`,
`low → 1`, and the `default` branch of the `switch` returns `1`. -/
def getPriorityScore (priority : String) : ℚ :=
  if priority = "high" then 3
  else if priority = "medium" then 2
  else if priority = "low" then 1
  else 1

/-- The banded urgency value of `getUrgencyScore` as a function of the
computed `diffInDays`. -/
def clientUrgencyVal (diffInDays : ℤ) : ℚ :=
  if diffInDays < 0 then 10
  else if diffInDays = 0 then 8
  else if diffInDays = 1 then 6
  else if diffInDays ≤ 3 then 4
  else if diffInDays ≤ 7 then 2
  else 1

/-- Function `getUrgencyScore` from `taskSorting.ts`:
`diffInDays = Math.ceil((due - now) / 86400000)` followed by the band table.
`Math.ceil` on the exact quotient is `Int.ceil`. -/
def getUrgencyScore (now dueDate : ℚ) : ℚ :=
  clientUrgencyVal ⌈(dueDate - now) / 86400000⌉

/-- Function `getRecencyScore` from `taskSorting.ts`:
`diffInHours = (now - created) / 3600000` followed by the band table. -/
def getRecencyScore (now createdAt : ℚ) : ℚ :=
  if (now - createdAt) / 3600000 ≤ 1 then 5
  else if (now - createdAt) / 3600000 ≤ 24 then 3
  else if (now - createdAt) / 3600000 ≤ 72 then 2
  else 1

/-- The composite score computed inside the comparator of `smartSortTasks`:
`priority * 0.4 + urgency * 0.5 + recency * 0.1`. -/
def smartScore (now : ℚ) (t : CTask) : ℚ :=
  getPriorityScore t.priority * (4/10) + getUrgencyScore now t.dueDate * (5/10)
    + getRecencyScore now t.createdAt * (1/10)

/-- The comparator passed to `sort` in `smartSortTasks`: completed tasks after
non-completed ones, completed tasks among themselves by `updatedAt`
descending, everything else by composite score descending. -/
def smartCompare (now : ℚ) (a b : CTask) : ℚ :=
  if a.status = "completed" ∧ b.status ≠ "completed" then 1
  else if b.status = "completed" ∧ a.status ≠ "completed" then -1
  else if a.status = "completed" ∧ b.status = "completed" then
    b.updatedAt - a.updatedAt
  else smartScore now b - smartScore now a

/-- Function `smartSortTasks` from `taskSorting.ts`: copies the array (`[...tasks]`)
and sorts it with the comparator.  A comparator sort is modelled as a stable
merge sort keeping `a` before `b` whenever `comparator a b ≤ 0`. -/
def smartSortTasks (now : ℚ) (tasks : List CTask) : List CTask :=
  tasks.mergeSort (fun a b => decide (smartCompare now a b ≤ 0))

/-! ## Server task model and ranking (`src/backend/src/models/Task.ts`) -/

/-- A stored backend task document (the fields of `TaskSchema` that the
ranking aggregation and the `completedAt` invariant read). -/
structure STask where
  _id : String
  title : String
  description : String
  priority : String
  status : String
  dueDate : ℚ
  createdAt : ℚ
  updatedAt : ℚ
  completedAt : Option ℚ
deriving DecidableEq

/-- Lexicographic code-point comparison of character lists, the order MongoDB
uses for ascending `$sort` on the (ASCII) status strings. -/
def strBytesLt : List Char → List Char → Bool
  | [], [] => false
  | [], _ :: _ => true
  | _ :: _, [] => false
  | a :: as, b :: bs =>
    if a.toNat < b.toNat then true
    else if b.toNat < a.toNat then false
    else strBytesLt as bs

/-- BSON string comparison on `String`. -/
def bsonStrLt (a b : String) : Bool := strBytesLt a.data b.data

/-- Field `priorityScore` of the aggregation in `getSmartSortedTasks`:
`$switch` with branches `high → 3`, `medium → 2`, `low → 1` and `default: 2`. -/
def priorityScore (priority : String) : ℚ :=
  if priority = "high" then 3
  else if priority = "medium" then 2
  else if priority = "low" then 1
  else 2

/-- Field `urgencyScore` of the aggregation: overdue (`dueDate ≤ now`) gets `10`,
otherwise `86400000 / (dueDate - now)`. -/
def urgencyScore (now dueDate : ℚ) : ℚ :=
  if dueDate ≤ now then 10 else 86400000 / (dueDate - now)

/-- Field `smartScore` of the aggregation:
`priorityScore * 2 + urgencyScore * 3 + (now - createdAt) / 86400000`. -/
def serverSmartScore (now : ℚ) (t : STask) : ℚ :=
  priorityScore t.priority * 2 + urgencyScore now t.dueDate * 3
    + (now - t.createdAt) / 86400000

/-- The `$sort { status: 1, smartScore: -1, createdAt: -1 }` stage as a
"should `a` come before or with `b`" predicate: ascending BSON string order
on `status`, then `smartScore` descending, then `createdAt` descending. -/
def serverSortLe (now : ℚ) (a b : STask) : Bool :=
  if bsonStrLt a.status b.status then true
  else if bsonStrLt b.status a.status then false
  else if serverSmartScore now b < serverSmartScore now a then true
  else if serverSmartScore now a < serverSmartScore now b then false
  else decide (b.createdAt ≤ a.createdAt)

/-- Static method `getSmartSortedTasks` from `Task.ts`, restricted to the stages the claims
are about: score the matched tasks and sort them by the `$sort` key. -/
def getSmartSortedTasks (now : ℚ) (tasks : List STask) : List STask :=
  tasks.mergeSort (serverSortLe now)

/-! ## Backend task persistence (`Task.ts` hook, `part_001` route handlers) -/

/-- The `pre-save` middleware of `TaskSchema`: when the `status` path was
modified, set `completedAt` to the save time if the task became completed
with no `completedAt` yet, and clear it when the status is not completed.
It runs only on document `save`, not on `findOneAndUpdate` queries. -/
def preSaveHook (now : ℚ) (statusModified : Bool) (t : STask) : STask :=
  if statusModified then
    if t.status = "completed" ∧ t.completedAt = none then
      { t with completedAt := some now }
    else if t.status ≠ "completed" then { t with completedAt := none }
    else t
  else t

/-- Saving via `document.save()`: the pre-save hook runs, then the document is stored. -/
def saveTask (now : ℚ) (statusModified : Bool) (t : STask) : STask :=
  preSaveHook now statusModified t

/-- The `createTask` route (`part_001`): builds a document with
`status: pending` (and `completedAt` at its schema default `null`), then
`save()`s it.  On a new document every set path counts as modified. -/
def createTaskRoute (now : ℚ) (title description priority : String)
    (dueDate : ℚ) : STask :=
  saveTask now true
    { _id := "", title := title, description := description,
      priority := priority, status := "pending", dueDate := dueDate,
      createdAt := now, updatedAt := now, completedAt := none }

/-- The `completeTask` route (`part_001`):
`Task.findOneAndUpdate({_id, userId}, { status: COMPLETED }, { new: true })`.
`findOneAndUpdate` is a query update — the document `pre-save` hook does
not run — so only the `status` field changes. -/
def completeTaskRoute (t : STask) : STask :=
  { t with status := "completed" }

/-- The spec invariant: `completedAt` is non-null iff `status = completed`. -/
def completedAtInvariant (t : STask) : Prop :=
  t.completedAt ≠ none ↔ t.status = "completed"

/-! ## Offline queue (`src/unnamed/part_005`) -/

/-- The `TaskForm` payload a queued `CREATE` carries (minus the `tempId`,
which `processOfflineQueue` strips before calling the API). -/
structure TaskFormData where
  title : String
  description : String
  priority : String
  dueDate : ℚ
  category : String
deriving DecidableEq

/-- A `Partial<TaskForm>` update payload for a queued `UPDATE`. -/
structure TaskUpdates where
  title : Option String
  description : Option String
  priority : Option String
  dueDate : Option ℚ
  category : Option String
deriving DecidableEq

/-- The `data` field of a `PendingOperation`, shaped as each enqueue site
builds it: `{...taskData, tempId}` for `CREATE`, `{id, updates}` for
`UPDATE`, `{id}` for `DELETE` (the `type` tag is determined by the shape). -/
inductive OpData where
  | createData (form : TaskFormData) (tempId : Option String)
  | updateData (id : String) (updates : TaskUpdates)
  | deleteData (id : String)
deriving DecidableEq

/-- A `PendingOperation` of the offline queue: `id` and `timestamp` are both
minted from `Date.now()` at enqueue time. -/
structure PendingOperation where
  id : String
  data : OpData
  timestamp : Nat
deriving DecidableEq

/-- The envelope `taskAPI.createTask` resolves with: the `success` flag and
`response.data?._id`, the server-assigned permanent id when present. -/
structure CreateResponse where
  success : Bool
  dataId : Option String
deriving DecidableEq

/-- The responses the remote API gives to the calls of one drain pass.  Each
queued operation is replayed at most once per pass, so a fixed
response-per-call oracle captures an arbitrary remote behaviour; a thrown
transport error is observationally a `success = false` envelope (the `catch`
around the `switch` just logs and moves on, confirming nothing). -/
structure ApiClient where
  createTask : TaskFormData → CreateResponse
  updateTask : String → TaskUpdates → Bool
  deleteTask : String → Bool

/-- Whether the remote confirms a given queued operation in this pass. -/
def opSucceeds (api : ApiClient) (op : PendingOperation) : Bool :=
  match op.data with
  | .createData form _ => (api.createTask form).success
  | .updateData tid upd => api.updateTask tid upd
  | .deleteData tid => api.deleteTask tid

/-- JavaScript object assignment `m[k] = v`: replace the binding if the key
is present, otherwise add it. -/
def objInsert (m : List (String × String)) (k v : String) :
    List (String × String) :=
  if (m.lookup k).isSome then
    m.map (fun kv => if kv.1 = k then (k, v) else kv)
  else m ++ [(k, v)]

/-- The accumulator of the `for (const operation of queue)` loop in
`processOfflineQueue`: `successfulOperations`, `tempTaskMappings`, and (for
the analysis) the operations the loop has issued API calls for. -/
structure DrainAcc where
  successfulOperations : List String
  tempTaskMappings : List (String × String)
  attempted : List PendingOperation
deriving DecidableEq

/-- One iteration of the drain loop body (the `switch` on `operation.type`):
call the API function matching the kind; on success record the operation id,
and for a `CREATE` whose payload carried a (non-empty) `tempId` and whose
response carried a (non-empty) `data._id`, record the temp→real mapping. -/
def processOp (api : ApiClient) (op : PendingOperation) (acc : DrainAcc) :
    DrainAcc :=
  match op.data with
  | .createData form tempId =>
    let response := api.createTask form
    if response.success then
      let acc1 := { acc with
        successfulOperations := acc.successfulOperations ++ [op.id] }
      match tempId, response.dataId with
      | some t, some realId =>
        if t ≠ "" ∧ realId ≠ "" then
          { acc1 with tempTaskMappings := objInsert acc1.tempTaskMappings t realId }
        else acc1
      | _, _ => acc1
    else acc
  | .updateData tid upd =>
    if api.updateTask tid upd then
      { acc with successfulOperations := acc.successfulOperations ++ [op.id] }
    else acc
  | .deleteData tid =>
    if api.deleteTask tid then
      { acc with successfulOperations := acc.successfulOperations ++ [op.id] }
    else acc

/-- The full drain loop over the queue snapshot, in order. -/
def drainLoop (api : ApiClient) : List PendingOperation → DrainAcc → DrainAcc
  | [], acc => acc
  | op :: rest, acc =>
    drainLoop api rest (processOp api op { acc with attempted := acc.attempted ++ [op] })

/-- Function `updateCachedTasksWithRealIds` applied to one cached task:
`if (mappings[task._id]) task._id = mappings[task._id]` — the lookup result
must also be truthy (a non-empty string) for the rewrite to fire. -/
def rewriteId (mappings : List (String × String)) (t : CTask) : CTask :=
  match mappings.lookup t._id with
  | some realId => if realId = "" then t else { t with _id := realId }
  | none => t

/-- Function `updateCachedTasksWithRealIds` (`part_005`): if nothing is cached
(`!cachedTasks`) return; otherwise rewrite the `_id` of each cached task through
the mappings, in place, and store the result.  The queue store is not read
or written by this function. -/
def updateCachedTasksWithRealIds (mappings : List (String × String))
    (cachedTasks : Option (List CTask)) : Option (List CTask) :=
  match cachedTasks with
  | none => none
  | some tasks => some (tasks.map (rewriteId mappings))

/-- The observable outcome of one `processOfflineQueue` pass. -/
structure QueueProcessResult where
  remainingQueue : List PendingOperation
  cachedTasks : Option (List CTask)
  tempTasksCleared : Bool
  attempted : List PendingOperation
deriving DecidableEq

/-- Function `processOfflineQueue` (`part_005`): snapshot the queue; if empty return;
run the drain loop over every entry; apply the collected temp-id mappings to
the cached tasks (only the cache — queued payloads are never touched); then
persist the queue filtered of the confirmed operation ids (only when at
least one succeeded), clearing temp tasks when nothing remains. -/
def processOfflineQueue (api : ApiClient) (queue : List PendingOperation)
    (cachedTasks : Option (List CTask)) : QueueProcessResult :=
  if queue.isEmpty then
    { remainingQueue := queue, cachedTasks := cachedTasks,
      tempTasksCleared := false, attempted := [] }
  else
    let r := drainLoop api queue
      ({ successfulOperations := [], tempTaskMappings := [], attempted := [] })
    let cached1 := if r.tempTaskMappings = [] then cachedTasks
      else updateCachedTasksWithRealIds r.tempTaskMappings cachedTasks
    if r.successfulOperations = [] then
      { remainingQueue := queue, cachedTasks := cached1,
        tempTasksCleared := false, attempted := r.attempted }
    else
      let remainingQueue := queue.filter
        (fun op => !(decide (op.id ∈ r.successfulOperations)))
      { remainingQueue := remainingQueue, cachedTasks := cached1,
        tempTasksCleared := remainingQueue.isEmpty, attempted := r.attempted }

/-! ## Queue persistence (`addToOfflineQueue`, `getOfflineQueue`) -/

/-- The `AsyncStorage` slot holding the serialized queue, together with
fault flags for its `getItem`/`setItem` calls. -/
structure QueueStorage where
  stored : List PendingOperation
  readFails : Bool
  writeFails : Bool
deriving DecidableEq

/-- What a call to `addToOfflineQueue` produces: whether the returned promise
resolves (it never rejects — the `catch` only logs), whether the catch
logged a persistence error, and the storage afterwards. -/
structure AddResult where
  resolved : Bool
  loggedError : Bool
  storage : QueueStorage
deriving DecidableEq

/-- Function `getOfflineQueue` (`part_005`): parse the stored queue; a read fault is
caught and an empty queue returned. -/
def getOfflineQueue (st : QueueStorage) : List PendingOperation :=
  if st.readFails then [] else st.stored

/-- Function `addToOfflineQueue` (`part_005`): read the queue, append a new operation
stamped with `Date.now()` (`nowMs`), and write it back.  A `setItem` fault is
caught, logged with `console.error`, and the promise still resolves — the
caller is not told, and nothing was persisted. -/
def addToOfflineQueue (st : QueueStorage) (data : OpData) (nowMs : Nat) :
    AddResult :=
  let queue := getOfflineQueue st
  let newOperation : PendingOperation :=
    { id := toString nowMs, data := data, timestamp := nowMs }
  let queue1 := queue ++ [newOperation]
  if st.writeFails then
    { resolved := true, loggedError := true, storage := st }
  else
    { resolved := true, loggedError := false,
      storage := { st with stored := queue1 } }

/-! ## Concrete fixtures used by the counterexamples and witnesses -/

/-- A low-priority task one hour overdue at the reference instant
`now = 864000000` (day 10), created at the epoch. -/
def overdueHourTask : CTask :=
  ⟨"a", "OverdueByAnHour", "", "low", "pending", 860400000, "General", 0, 0⟩

/-- A low-priority task two full days overdue at the reference instant
`now = 864000000` (day 10), created at the epoch. -/
def twoDaysOverdueTask : CTask :=
  ⟨"a", "TwoDaysOverdue", "", "low", "pending", 691200000, "General", 0, 0⟩

/-- A high-priority task due in one hour at `now = 864000000`, created at
that same instant. -/
def dueSoonTask : CTask :=
  ⟨"b", "DueInAnHour", "", "high", "pending", 867600000, "General",
    864000000, 864000000⟩

/-- A completed server task document. -/
def completedDoc : STask :=
  ⟨"a", "Done", "", "medium", "completed", 10, 0, 5, some 5⟩

/-- A pending server task document. -/
def pendingDoc : STask :=
  ⟨"b", "Open", "", "medium", "pending", 10, 0, 5, none⟩

/-- The completed task as the client sees it. -/
def completedClientTask : CTask :=
  ⟨"a", "Done", "", "medium", "completed", 10, "General", 0, 5⟩

/-- The pending task as the client sees it. -/
def pendingClientTask : CTask :=
  ⟨"b", "Open", "", "medium", "pending", 10, "General", 0, 5⟩

/-- A stored pending task about to be completed. -/
def pendingStoredTask : STask :=
  ⟨"t1", "Todo", "", "medium", "pending", 1000, 0, 0, none⟩

/-- The queued update payload setting the title to `u1`. -/
def upd1 : TaskUpdates := ⟨some ("u1"), none, none, none, none⟩

/-- The queued update payload setting the title to `u2`. -/
def upd2 : TaskUpdates := ⟨some ("u2"), none, none, none, none⟩

/-- The queued update payload setting the title to `u3`. -/
def upd3 : TaskUpdates := ⟨some ("u3"), none, none, none, none⟩

/-- First of three UPDATE operations for task `T1`, enqueued in order. -/
def queuedOp1 : PendingOperation := ⟨"1", .updateData ("T1") upd1, 1⟩

/-- Second of three UPDATE operations for task `T1`. -/
def queuedOp2 : PendingOperation := ⟨"2", .updateData ("T1") upd2, 2⟩

/-- Third of three UPDATE operations for task `T1`. -/
def queuedOp3 : PendingOperation := ⟨"3", .updateData ("T1") upd3, 3⟩

/-- A remote that accepts every update except the one carrying title `u2`. -/
def rejectSecondApi : ApiClient :=
  { createTask := fun _ => ⟨false, none⟩,
    updateTask := fun _ upd => decide (upd.title ≠ some ("u2")),
    deleteTask := fun _ => false }

/-- The CREATE payload of an offline-created task. -/
def offlineCreateForm : TaskFormData := ⟨"Buy milk", "", "medium", 0, "General"⟩

/-- The queued CREATE carrying temporary id `temp_1`. -/
def queuedCreateOp : PendingOperation :=
  ⟨"10", .createData offlineCreateForm (some ("temp_1")), 10⟩

/-- The queued UPDATE whose payload still references `temp_1`. -/
def queuedUpdateOp : PendingOperation :=
  ⟨"11", .updateData ("temp_1") upd1, 11⟩

/-- The cached optimistic task carrying the temporary id. -/
def cachedTempTask : CTask :=
  ⟨"temp_1", "Buy milk", "", "medium", "pending", 0, "General", 0, 0⟩

/-- A remote that confirms the create with permanent id `p1` and accepts
updates only for `p1` (the server has never heard of `temp_1`). -/
def confirmCreateApi : ApiClient :=
  { createTask := fun _ => ⟨true, some ("p1")⟩,
    updateTask := fun i _ => decide (i = "p1"),
    deleteTask := fun _ => false }

/-- The tuple of all `CTask` fields other than `_id`: what identity
reconciliation must leave untouched. -/
def ctaskAttrs (t : CTask) :
    String × String × String × String × ℚ × String × ℚ × ℚ :=
  (t.title, t.description, t.priority, t.status, t.dueDate, t.category,
    t.createdAt, t.updatedAt)

/-- A DELETE payload used when exercising `addToOfflineQueue`. -/
def deleteOpData : OpData := .deleteData ("T9")

/-! ## Score bounds and monotonicity lemmas -/

lemma getPriorityScore_bounds (p : String) :
    1 ≤ getPriorityScore p ∧ getPriorityScore p ≤ 3 := by
  unfold getPriorityScore
  split_ifs <;> norm_num

lemma getRecencyScore_bounds (now c : ℚ) :
    1 ≤ getRecencyScore now c ∧ getRecencyScore now c ≤ 5 := by
  unfold getRecencyScore
  split_ifs <;> norm_num

lemma clientUrgencyVal_antitone {i j : ℤ} (h : i ≤ j) :
    clientUrgencyVal j ≤ clientUrgencyVal i := by
  unfold clientUrgencyVal
  split_ifs <;> (first | (exfalso; omega) | norm_num)

lemma clientUrgencyVal_le_six {d : ℤ} (h : 0 < d) : clientUrgencyVal d ≤ 6 := by
  unfold clientUrgencyVal
  split_ifs <;> (first | (exfalso; omega) | norm_num)

lemma clientUrgencyVal_of_neg {d : ℤ} (h : d < 0) : clientUrgencyVal d = 10 := by
  unfold clientUrgencyVal
  rw [if_pos h]

lemma getUrgencyScore_le_six {now due : ℚ} (h : now < due) :
    getUrgencyScore now due ≤ 6 := by
  unfold getUrgencyScore
  exact clientUrgencyVal_le_six
    (Int.ceil_pos.mpr (div_pos (by linarith) (by norm_num)))

lemma getUrgencyScore_overdue_day {now due : ℚ} (h : due ≤ now - 86400000) :
    getUrgencyScore now due = 10 := by
  unfold getUrgencyScore
  apply clientUrgencyVal_of_neg
  have h1 : (due - now) / 86400000 ≤ ((-1 : ℤ) : ℚ) := by
    push_cast
    rw [div_le_iff₀ (by norm_num : (0:ℚ) < 86400000)]
    linarith
  have h2 := Int.ceil_le.mpr h1
  omega

/-! ## C10 -/

/-- C10: for every input list of tasks, `smartSortTasks` returns a
permutation of the input — exactly the same task elements with the same
multiplicity, only reordered.  (The source sorts a spread copy
`[...tasks]`, and the model is a pure function, so the input list itself is
untouched.) -/
theorem c10_smartSortTasks_perm (now : ℚ) (tasks : List CTask) :
    (smartSortTasks now tasks).Perm tasks :=
  List.mergeSort_perm tasks _

/-! ## C6 -/

/-- C6 counterexample: for a priority string that is none of
`low`/`medium`/`high`, the client `getPriorityScore` falls back to `1` (the
score of `low`), not to the claimed `2` of `medium`; the server aggregation
does default to `2`, so the two implementations disagree on unknown
priorities. -/
theorem c6_client_unknown_priority_scores_low :
    getPriorityScore ("urgent") = 1 ∧ priorityScore ("urgent") = 2 ∧
      getPriorityScore ("urgent") ≠ 2 := by
  have h1 : getPriorityScore ("urgent") = 1 := by
    unfold getPriorityScore
    rw [if_neg (by decide), if_neg (by decide), if_neg (by decide)]
  have h2 : priorityScore ("urgent") = 2 := by
    unfold priorityScore
    rw [if_neg (by decide), if_neg (by decide), if_neg (by decide)]
  exact ⟨h1, h2, by rw [h1]; norm_num⟩

/-- C6 (amended): known priorities score `high = 3`, `medium = 2`, `low = 1`
in both implementations, and the sort does not fail on a malformed priority;
but the fallback for an unknown priority differs: the client scores it `1`
(like `low`) while the server scores it `2` (like `medium`). -/
theorem c6_priority_score_defaults :
    (getPriorityScore ("high") = 3 ∧ getPriorityScore ("medium") = 2 ∧
      getPriorityScore ("low") = 1 ∧ priorityScore ("high") = 3 ∧
      priorityScore ("medium") = 2 ∧ priorityScore ("low") = 1) ∧
    (∀ p : String, p ≠ "high" → p ≠ "medium" → p ≠ "low" →
      getPriorityScore p = 1 ∧ priorityScore p = 2) := by
  constructor
  · unfold getPriorityScore priorityScore
    refine ⟨?_, ?_, ?_, ?_, ?_, ?_⟩
    · rw [if_pos rfl]
    · rw [if_neg (by decide), if_pos rfl]
    · rw [if_neg (by decide), if_neg (by decide), if_pos rfl]
    · rw [if_pos rfl]
    · rw [if_neg (by decide), if_pos rfl]
    · rw [if_neg (by decide), if_neg (by decide), if_pos rfl]
  · intro p h1 h2 h3
    unfold getPriorityScore priorityScore
    rw [if_neg h1, if_neg h2, if_neg h3, if_neg h1, if_neg h2, if_neg h3]
    exact ⟨rfl, rfl⟩

/-- Witness for `c6_priority_score_defaults` at the unknown priority
string `asap`. -/
theorem c6_priority_score_defaults_witness :
    getPriorityScore ("asap") = 1 ∧ priorityScore ("asap") = 2 :=
  c6_priority_score_defaults.2 ("asap") (by decide) (by decide) (by decide)

/-! ## C7 -/

/-- C7 counterexample: at `now = 0`, a task due in 2 days and a task due in
3 days both receive client urgency `4` (they fall in the same
`diffInDays ≤ 3` band), so the task due sooner does *not* get a strictly
higher urgency score in the client implementation. -/
theorem c7_client_urgency_ties_between_bands :
    (0:ℚ) < 172800000 ∧ (172800000:ℚ) < 259200000 ∧
    getUrgencyScore 0 172800000 = 4 ∧ getUrgencyScore 0 259200000 = 4 ∧
    ¬ (getUrgencyScore 0 259200000 < getUrgencyScore 0 172800000) := by
  have h2 : getUrgencyScore 0 172800000 = 4 := by
    unfold getUrgencyScore
    rw [show ((172800000:ℚ) - 0) / 86400000 = ((2:ℤ) : ℚ) from by norm_num,
      Int.ceil_intCast]
    norm_num [clientUrgencyVal]
  have h3 : getUrgencyScore 0 259200000 = 4 := by
    unfold getUrgencyScore
    rw [show ((259200000:ℚ) - 0) / 86400000 = ((3:ℤ) : ℚ) from by norm_num,
      Int.ceil_intCast]
    norm_num [clientUrgencyVal]
  refine ⟨by norm_num, by norm_num, h2, h3, ?_⟩
  rw [h2, h3]
  norm_num

/-- C7 (amended): for positive remaining time the *server* urgency
`86400000 / (dueDate - now)` is strictly decreasing in the due date, but the
*client* urgency is only weakly decreasing — it is a banded step function of
`dueDate`, constant within each band. -/
theorem c7_urgency_monotonicity :
    (∀ now d1 d2 : ℚ, now < d1 → d1 < d2 →
        urgencyScore now d2 < urgencyScore now d1) ∧
    (∀ now d1 d2 : ℚ, d1 ≤ d2 →
        getUrgencyScore now d2 ≤ getUrgencyScore now d1) := by
  constructor
  · intro now d1 d2 h1 h12
    unfold urgencyScore
    rw [if_neg (by linarith), if_neg (by linarith)]
    exact div_lt_div_of_pos_left (by norm_num) (by linarith) (by linarith)
  · intro now d1 d2 h
    unfold getUrgencyScore
    apply clientUrgencyVal_antitone
    apply Int.ceil_mono
    gcongr

/-- Witness for `c7_urgency_monotonicity`: due dates `1 < 2` after `now = 0`
for the server half, and `2 days ≤ 3 days` for the client half. -/
theorem c7_urgency_monotonicity_witness :
    (0:ℚ) < 1 ∧ (1:ℚ) < 2 ∧ urgencyScore 0 2 < urgencyScore 0 1 ∧
    (172800000:ℚ) ≤ 259200000 ∧
    getUrgencyScore 0 259200000 ≤ getUrgencyScore 0 172800000 :=
  ⟨by norm_num, by norm_num,
    c7_urgency_monotonicity.1 0 1 2 (by norm_num) (by norm_num),
    by norm_num,
    c7_urgency_monotonicity.2 0 172800000 259200000 (by norm_num)⟩

/-! ## C3 -/

/-- C3 (amended): in the client ranking, a non-completed task overdue by at
least one full day (so that `Math.ceil` maps its day difference below zero
and it receives the maximal urgency `10`) compares strictly before every
non-completed task whose due date is in the future, for every choice of the
priorities and creation times of both tasks.  (Tasks overdue by less than a day
land in the `diffInDays = 0` band with urgency `8`, not the maximum, and can
lose to an imminent high-priority recently-created task — see the
counterexample — and the server ranking gives future tasks unboundedly
large urgency and age scores, so no such dominance holds there at all.) -/
theorem c3_overdue_by_a_day_dominates (now : ℚ) (a b : CTask)
    (ha : a.status ≠ "completed") (hb : b.status ≠ "completed")
    (hadue : a.dueDate ≤ now - 86400000) (hbdue : now < b.dueDate) :
    smartCompare now a b < 0 ∧ 0 < smartCompare now b a := by
  have hua : getUrgencyScore now a.dueDate = 10 := getUrgencyScore_overdue_day hadue
  have hub : getUrgencyScore now b.dueDate ≤ 6 := getUrgencyScore_le_six hbdue
  have hpa := getPriorityScore_bounds a.priority
  have hpb := getPriorityScore_bounds b.priority
  have hra := getRecencyScore_bounds now a.createdAt
  have hrb := getRecencyScore_bounds now b.createdAt
  have hscore : smartScore now b < smartScore now a := by
    unfold smartScore
    rw [hua]
    have h1 := hpa.1
    have h2 := hpb.2
    have h3 := hra.1
    have h4 := hrb.2
    linarith
  constructor
  · unfold smartCompare
    rw [if_neg (fun h => ha h.1), if_neg (fun h => hb h.1),
      if_neg (fun h => ha h.1)]
    linarith
  · unfold smartCompare
    rw [if_neg (fun h => hb h.1), if_neg (fun h => ha h.1),
      if_neg (fun h => hb h.1)]
    linarith

/-- Witness for `c3_overdue_by_a_day_dominates`: `now` is day 10; `a` is a
low-priority task two days overdue created at the epoch; `b` is a
high-priority task due in one hour created just now. -/
theorem c3_overdue_by_a_day_dominates_witness :
    twoDaysOverdueTask.status ≠ "completed" ∧
    dueSoonTask.status ≠ "completed" ∧
    twoDaysOverdueTask.dueDate ≤ 864000000 - 86400000 ∧
    (864000000:ℚ) < dueSoonTask.dueDate ∧
    (smartCompare 864000000 twoDaysOverdueTask dueSoonTask < 0 ∧
      0 < smartCompare 864000000 dueSoonTask twoDaysOverdueTask) :=
  ⟨by decide, by decide, by norm_num [twoDaysOverdueTask],
    by norm_num [dueSoonTask],
    c3_overdue_by_a_day_dominates 864000000 _ _ (by decide) (by decide)
      (by norm_num [twoDaysOverdueTask]) (by norm_num [dueSoonTask])⟩

lemma urgency_overdueHourTask : getUrgencyScore 864000000 860400000 = 8 := by
  have hc : (⌈((860400000:ℚ) - 864000000) / 86400000⌉ : ℤ) = 0 := by
    rw [Int.ceil_eq_iff]
    norm_num
  unfold getUrgencyScore
  rw [hc]
  norm_num [clientUrgencyVal]

lemma urgency_dueSoonTask : getUrgencyScore 864000000 867600000 = 6 := by
  have hc : (⌈((867600000:ℚ) - 864000000) / 86400000⌉ : ℤ) = 1 := by
    rw [Int.ceil_eq_iff]
    norm_num
  unfold getUrgencyScore
  rw [hc]
  norm_num [clientUrgencyVal]

lemma smartScore_overdueHourTask : smartScore 864000000 overdueHourTask = 45/10 := by
  unfold smartScore
  rw [show overdueHourTask.priority = "low" from rfl,
    show overdueHourTask.dueDate = (860400000:ℚ) from rfl,
    show overdueHourTask.createdAt = (0:ℚ) from rfl,
    urgency_overdueHourTask]
  have h4 : getPriorityScore ("low") = 1 := by
    unfold getPriorityScore
    rw [if_neg (by decide), if_neg (by decide), if_pos rfl]
  have h5 : getRecencyScore 864000000 0 = 1 := by
    unfold getRecencyScore
    rw [if_neg (by norm_num), if_neg (by norm_num), if_neg (by norm_num)]
  rw [h4, h5]
  norm_num

lemma smartScore_dueSoonTask : smartScore 864000000 dueSoonTask = 47/10 := by
  unfold smartScore
  rw [show dueSoonTask.priority = "high" from rfl,
    show dueSoonTask.dueDate = (867600000:ℚ) from rfl,
    show dueSoonTask.createdAt = (864000000:ℚ) from rfl,
    urgency_dueSoonTask]
  have h4 : getPriorityScore ("high") = 3 := by
    unfold getPriorityScore
    rw [if_pos rfl]
  have h5 : getRecencyScore 864000000 864000000 = 5 := by
    unfold getRecencyScore
    rw [if_pos (by norm_num)]
  rw [h4, h5]
  norm_num

/-- C3 counterexample: `overdueHourTask` has a due date strictly in the past
at `now = 864000000` and `dueSoonTask` a due date in the future, both
non-completed, yet the client sort places the future-due task first:
`Math.ceil` sends the one-hour-overdue difference to `diffInDays = 0`
(urgency 8, not the claimed maximum 10), and the high-priority
recently-created future task out-scores it `4.7` to `4.5`. -/
theorem c3_overdue_sorts_after_future_counterexample :
    overdueHourTask.dueDate < 864000000 ∧
    (864000000:ℚ) < dueSoonTask.dueDate ∧
    overdueHourTask.status ≠ "completed" ∧ dueSoonTask.status ≠ "completed" ∧
    smartSortTasks 864000000 [overdueHourTask, dueSoonTask]
      = [dueSoonTask, overdueHourTask] := by
  have hcmp : smartCompare 864000000 overdueHourTask dueSoonTask = 1/5 := by
    unfold smartCompare
    rw [if_neg (by decide), if_neg (by decide), if_neg (by decide),
      smartScore_overdueHourTask, smartScore_dueSoonTask]
    norm_num
  have hle : decide (smartCompare 864000000 overdueHourTask dueSoonTask ≤ 0)
      = false := by
    rw [hcmp]
    norm_num
  refine ⟨by norm_num [overdueHourTask], by norm_num [dueSoonTask],
    by decide, by decide, ?_⟩
  unfold smartSortTasks
  simp [List.mergeSort, hle]

/-! ## C4 -/

/-- C4: the claim fails on the server implementation.  The `$sort` stage
sorts `status` *ascending as a BSON string* — despite its `Pending tasks
first` comment — and `"completed" < "in_progress" < "pending"`
lexicographically, so the server returns completed tasks *before* all
non-completed ones; the client comparator, by contrast, does place the
non-completed task first.  (Nor does the server order completed tasks among
themselves by `updatedAt`: its tie-breakers are `smartScore` and
`createdAt`.) -/
theorem c4_server_sorts_completed_first :
    completedDoc.status = "completed" ∧ pendingDoc.status ≠ "completed" ∧
    getSmartSortedTasks 0 [pendingDoc, completedDoc]
      = [completedDoc, pendingDoc] ∧
    smartSortTasks 0 [completedClientTask, pendingClientTask]
      = [pendingClientTask, completedClientTask] := by
  have hsrv : serverSortLe 0 pendingDoc completedDoc = false := by decide
  have hcmp : smartCompare 0 completedClientTask pendingClientTask = 1 := by
    unfold smartCompare
    rw [if_pos (by decide : completedClientTask.status = "completed" ∧
      pendingClientTask.status ≠ "completed")]
  have hcli : decide (smartCompare 0 completedClientTask pendingClientTask ≤ 0)
      = false := by
    rw [hcmp]
    norm_num
  refine ⟨rfl, by decide, ?_, ?_⟩
  · unfold getSmartSortedTasks
    simp [List.mergeSort, hsrv]
  · unfold smartSortTasks
    simp [List.mergeSort, hcli]

/-! ## C5 -/

/-- C5: the claim fails on the code.  `completeTask` updates through
`findOneAndUpdate({_id, userId}, { status: COMPLETED }, { new: true })`,
which runs no document `save` middleware, so the `pre-save` hook whose
stated purpose is "to set completedAt when status changes to completed"
never fires: the task is returned and stored with `status = completed` and
`completedAt` still `null`, violating the invariant.  Had the update gone
through `save()`, the hook would have set `completedAt` (last conjunct). -/
theorem c5_completeTask_leaves_completedAt_null :
    (completeTaskRoute pendingStoredTask).status = "completed" ∧
    (completeTaskRoute pendingStoredTask).completedAt = none ∧
    ¬ completedAtInvariant (completeTaskRoute pendingStoredTask) ∧
    (saveTask 42 true
      { pendingStoredTask with status := "completed" }).completedAt
        = some 42 := by
  refine ⟨rfl, rfl, ?_, ?_⟩
  · intro hinv
    exact (hinv.mpr rfl) rfl
  · unfold saveTask preSaveHook
    rw [if_pos rfl, if_pos (by decide :
      ({ pendingStoredTask with status := "completed" } : STask).status
          = "completed" ∧
        ({ pendingStoredTask with status := "completed" } : STask).completedAt
          = none)]

/-! ## Drain-loop lemmas -/

lemma processOp_attempted (api : ApiClient) (op : PendingOperation)
    (acc : DrainAcc) : (processOp api op acc).attempted = acc.attempted := by
  rcases op with ⟨oid, odata, ots⟩
  cases odata with
  | createData form tempId =>
    by_cases h : (api.createTask form).success
    · cases tempId with
      | none => simp [processOp, h]
      | some t =>
        cases hd : (api.createTask form).dataId with
        | none => simp [processOp, h, hd]
        | some r => simp only [processOp, h, hd, if_true]; split_ifs <;> rfl
    · simp [processOp, h]
  | updateData tid upd =>
    by_cases h : api.updateTask tid upd <;> simp [processOp, h]
  | deleteData tid =>
    by_cases h : api.deleteTask tid <;> simp [processOp, h]

lemma processOp_succ (api : ApiClient) (op : PendingOperation)
    (acc : DrainAcc) : (processOp api op acc).successfulOperations
      = acc.successfulOperations
        ++ (if opSucceeds api op then [op.id] else []) := by
  rcases op with ⟨oid, odata, ots⟩
  cases odata with
  | createData form tempId =>
    by_cases h : (api.createTask form).success
    · cases tempId with
      | none => simp [processOp, opSucceeds, h]
      | some t =>
        cases hd : (api.createTask form).dataId with
        | none => simp [processOp, opSucceeds, h, hd]
        | some r =>
          simp only [processOp, opSucceeds, h, hd, if_true]
          split_ifs <;> simp
    · simp [processOp, opSucceeds, h]
  | updateData tid upd =>
    by_cases h : api.updateTask tid upd <;> simp [processOp, opSucceeds, h]
  | deleteData tid =>
    by_cases h : api.deleteTask tid <;> simp [processOp, opSucceeds, h]

lemma drainLoop_attempted (api : ApiClient) (ops : List PendingOperation) :
    ∀ acc : DrainAcc, (drainLoop api ops acc).attempted
      = acc.attempted ++ ops := by
  induction ops with
  | nil => intro acc; simp [drainLoop]
  | cons op rest ih =>
    intro acc
    rw [drainLoop, ih, processOp_attempted]
    simp

lemma drainLoop_succ (api : ApiClient) (ops : List PendingOperation) :
    ∀ acc : DrainAcc, (drainLoop api ops acc).successfulOperations
      = acc.successfulOperations
        ++ (ops.filter (opSucceeds api)).map PendingOperation.id := by
  induction ops with
  | nil => intro acc; simp [drainLoop]
  | cons op rest ih =>
    intro acc
    rw [drainLoop, ih, processOp_succ]
    by_cases h : opSucceeds api op <;> simp [List.filter_cons, h]

lemma lookup_mem {k v : String} : ∀ {m : List (String × String)},
    List.lookup k m = some v → (k, v) ∈ m := by
  intro m
  induction m with
  | nil => intro h; simp [List.lookup] at h
  | cons kv rest ih =>
    intro h
    rcases kv with ⟨k1, v1⟩
    rw [List.lookup] at h
    by_cases hk : k == k1
    · simp only [hk] at h
      have hk' : k = k1 := by
        have := beq_iff_eq.mp hk
        exact this
      have hv : v1 = v := by
        cases h
        rfl
      rw [hk', ← hv]
      exact List.mem_cons_self _ _
    · rw [Bool.eq_false_iff.mpr hk] at h
      exact List.mem_cons_of_mem _ (ih h)

/-! ## C2 -/

/-- C2 counterexample: with three UPDATE operations queued in order for the
same task `T1`, a drain pass on a remote that confirms the first, rejects
the second, and would confirm the third *does* attempt (and confirm) the
third operation in that same pass — the loop has no per-task blocking — so
only the failed second operation remains queued. -/
theorem c2_third_op_attempted_after_failure :
    opSucceeds rejectSecondApi queuedOp1 = true ∧
    opSucceeds rejectSecondApi queuedOp2 = false ∧
    queuedOp3 ∈ (processOfflineQueue rejectSecondApi
      [queuedOp1, queuedOp2, queuedOp3] none).attempted ∧
    opSucceeds rejectSecondApi queuedOp3 = true ∧
    (processOfflineQueue rejectSecondApi [queuedOp1, queuedOp2, queuedOp3]
      none).remainingQueue = [queuedOp2] := by
  decide

/-- C2 (amended): a drain pass calls the remote API for *every* queued
operation in snapshot order, regardless of earlier failures — even for the
same task id — and afterwards the queue holds exactly the operations whose
call failed, in their original relative order (assuming the minted
operation ids are distinct). -/
theorem c2_drain_attempts_all_and_keeps_failed (api : ApiClient)
    (queue : List PendingOperation) (cached : Option (List CTask))
    (hnd : (queue.map PendingOperation.id).Nodup) :
    (processOfflineQueue api queue cached).attempted = queue ∧
    (processOfflineQueue api queue cached).remainingQueue
      = queue.filter (fun op => !(opSucceeds api op)) := by
  by_cases hq : queue.isEmpty
  · have hq' : queue = [] := List.isEmpty_iff.mp hq
    subst hq'
    simp [processOfflineQueue]
  · have hatt := drainLoop_attempted api queue ⟨[], [], []⟩
    have hsucc := drainLoop_succ api queue ⟨[], [], []⟩
    simp only [processOfflineQueue]
    rw [if_neg hq]
    by_cases hs : (drainLoop api queue ⟨[], [], []⟩).successfulOperations = []
    · rw [if_pos hs]
      refine ⟨by rw [hatt]; rfl, ?_⟩
      rw [hs] at hsucc
      have hnil : (queue.filter (opSucceeds api)).map PendingOperation.id
          = [] := by
        simpa using hsucc.symm
      have hall := List.filter_eq_nil_iff.mp (List.map_eq_nil_iff.mp hnil)
      refine (List.filter_eq_self.mpr ?_).symm
      intro op hop
      rw [Bool.not_eq_true']
      exact Bool.not_eq_true _ |>.mp (hall op hop)
    · rw [if_neg hs]
      refine ⟨by rw [hatt]; rfl, ?_⟩
      apply List.filter_congr
      intro op hop
      rw [hsucc]
      simp only [List.nil_append]
      by_cases h2 : opSucceeds api op
      · have hmem : op.id ∈ (queue.filter (opSucceeds api)).map
            PendingOperation.id :=
          List.mem_map.mpr ⟨op, List.mem_filter.mpr ⟨hop, h2⟩, rfl⟩
        simp [hmem, h2]
      · have hmem : op.id ∉ (queue.filter (opSucceeds api)).map
            PendingOperation.id := by
          intro hin
          rcases List.mem_map.mp hin with ⟨op', hop', hid⟩
          rcases List.mem_filter.mp hop' with ⟨hop'q, hsucc'⟩
          have : op' = op := List.inj_on_of_nodup_map hnd hop'q hop hid
          rw [this] at hsucc'
          exact h2 hsucc'
        simp [hmem, h2]

/-- Witness for `c2_drain_attempts_all_and_keeps_failed` on the concrete
three-operation queue and the remote rejecting the second operation. -/
theorem c2_drain_attempts_all_witness :
    ([queuedOp1, queuedOp2, queuedOp3].map PendingOperation.id).Nodup ∧
    ((processOfflineQueue rejectSecondApi [queuedOp1, queuedOp2, queuedOp3]
        none).attempted = [queuedOp1, queuedOp2, queuedOp3] ∧
      (processOfflineQueue rejectSecondApi [queuedOp1, queuedOp2, queuedOp3]
        none).remainingQueue
        = [queuedOp1, queuedOp2, queuedOp3].filter
            (fun op => !(opSucceeds rejectSecondApi op))) :=
  ⟨by decide,
    c2_drain_attempts_all_and_keeps_failed rejectSecondApi _ none (by decide)⟩

/-! ## C1 -/

/-- C1 counterexample: a queued CREATE carrying `temp_1` succeeds and the
server returns permanent id `p1`; reconciliation rewrites the cached
task id to `p1`, but the still-queued UPDATE whose payload references `temp_1`
is *not* rewritten — it stays in the queue still targeting `temp_1`
(and therefore failed against the server, which only knows `p1`). -/
theorem c1_queue_reference_not_rewritten :
    (confirmCreateApi.createTask offlineCreateForm).success = true ∧
    (confirmCreateApi.createTask offlineCreateForm).dataId = some ("p1") ∧
    ((processOfflineQueue confirmCreateApi [queuedCreateOp, queuedUpdateOp]
        (some [cachedTempTask])).cachedTasks.getD []).map CTask._id
      = ["p1"] ∧
    (processOfflineQueue confirmCreateApi [queuedCreateOp, queuedUpdateOp]
        (some [cachedTempTask])).remainingQueue = [queuedUpdateOp] ∧
    queuedUpdateOp.data = OpData.updateData ("temp_1") upd1 ∧
    ("temp_1" : String) ≠ "p1" := by
  decide

/-- C1 (amended): reconciliation rewrites only the Local Cache —
`updateCachedTasksWithRealIds` preserves the position of every cached task and
all attributes other than `_id` (first conjunct) and rewrites a cached id
found in the mapping to its permanent id (second conjunct) — while the
operations still queued after a drain pass are a sublist of the original
queue, each entry byte-for-byte unchanged, so a still-queued Update/Delete
keeps referencing the temporary id (third conjunct). -/
theorem c1_reconcile_rewrites_cache_only :
    (∀ (m : List (String × String)) (c : Option (List CTask)),
        Option.map (List.map ctaskAttrs) (updateCachedTasksWithRealIds m c)
          = Option.map (List.map ctaskAttrs) c) ∧
    (∀ (m : List (String × String)) (t : CTask) (p : String),
        List.lookup t._id m = some p → p ≠ "" → (rewriteId m t)._id = p) ∧
    (∀ (api : ApiClient) (queue : List PendingOperation)
        (cached : Option (List CTask)),
        (processOfflineQueue api queue cached).remainingQueue.Sublist queue) := by
  refine ⟨?_, ?_, ?_⟩
  · intro m c
    cases c with
    | none => rfl
    | some tasks =>
      simp only [updateCachedTasksWithRealIds, Option.map_some']
      congr 1
      rw [List.map_map]
      apply List.map_congr_left
      intro t _
      show ctaskAttrs (rewriteId m t) = ctaskAttrs t
      cases hl : List.lookup t._id m with
      | none => simp [rewriteId, hl]
      | some p =>
        by_cases hp : p = "" <;> simp [rewriteId, hl, hp, ctaskAttrs]
  · intro m t p h hp
    simp only [rewriteId, h]
    rw [if_neg hp]
  · intro api queue cached
    simp only [processOfflineQueue]
    split_ifs <;>
      (first
        | exact List.Sublist.refl queue
        | exact List.filter_sublist queue)

/-- Witness for `c1_reconcile_rewrites_cache_only` on the concrete
`temp_1 → p1` mapping, the cached optimistic task, and the two-operation
queue. -/
theorem c1_reconcile_rewrites_cache_only_witness :
    List.lookup cachedTempTask._id [(("temp_1" : String), ("p1" : String))]
        = some ("p1") ∧
    ("p1" : String) ≠ "" ∧
    (rewriteId [(("temp_1" : String), ("p1" : String))] cachedTempTask)._id
        = "p1" ∧
    Option.map (List.map ctaskAttrs)
        (updateCachedTasksWithRealIds
          [(("temp_1" : String), ("p1" : String))] (some [cachedTempTask]))
      = Option.map (List.map ctaskAttrs) (some [cachedTempTask]) ∧
    (processOfflineQueue confirmCreateApi [queuedCreateOp, queuedUpdateOp]
        (some [cachedTempTask])).remainingQueue.Sublist
      [queuedCreateOp, queuedUpdateOp] :=
  ⟨by decide, by decide,
    c1_reconcile_rewrites_cache_only.2.1 _ cachedTempTask _ (by decide)
      (by decide),
    c1_reconcile_rewrites_cache_only.1 _ _,
    c1_reconcile_rewrites_cache_only.2.2 confirmCreateApi _ _⟩

/-! ## C8 -/

/-- C8: reconciliation is idempotent.  For any temporary-to-permanent id
mapping — any mapping whose values are not themselves keys, which holds of
real mappings because temporary ids carry the reserved `temp_` prefix and
permanent ids are server-assigned object ids — applying
`updateCachedTasksWithRealIds` twice yields the same cache as applying it
once: after the first pass no cached task carries a temporary id any more,
so the second pass finds nothing to rewrite.  (The function never reads or
writes the Mutation Queue store at all, so the queue state is trivially
unchanged by a second call.) -/
theorem c8_reconcile_idempotent (m : List (String × String))
    (hm : ∀ k v, (k, v) ∈ m → List.lookup v m = none)
    (c : Option (List CTask)) :
    updateCachedTasksWithRealIds m (updateCachedTasksWithRealIds m c)
      = updateCachedTasksWithRealIds m c := by
  cases c with
  | none => rfl
  | some tasks =>
    simp only [updateCachedTasksWithRealIds]
    congr 1
    rw [List.map_map]
    apply List.map_congr_left
    intro t _
    show rewriteId m (rewriteId m t) = rewriteId m t
    cases hl : List.lookup t._id m with
    | none => simp [rewriteId, hl]
    | some p =>
      by_cases hp : p = ""
      · simp [rewriteId, hl, hp]
      · have h2 : List.lookup p m = none := hm t._id p (lookup_mem hl)
        simp [rewriteId, hl, hp, h2]

/-- Witness for `c8_reconcile_idempotent` on the `temp_1 → p1` mapping and
the singleton cache holding the optimistic task. -/
theorem c8_reconcile_idempotent_witness :
    (∀ k v, (k, v) ∈ [(("temp_1" : String), ("p1" : String))] →
      List.lookup v [(("temp_1" : String), ("p1" : String))] = none) ∧
    updateCachedTasksWithRealIds [(("temp_1" : String), ("p1" : String))]
        (updateCachedTasksWithRealIds
          [(("temp_1" : String), ("p1" : String))] (some [cachedTempTask]))
      = updateCachedTasksWithRealIds
          [(("temp_1" : String), ("p1" : String))] (some [cachedTempTask]) := by
  have hmap : ∀ k v, (k, v) ∈ [(("temp_1" : String), ("p1" : String))] →
      List.lookup v [(("temp_1" : String), ("p1" : String))] = none := by
    intro k v h
    have h2 := List.mem_singleton.mp h
    cases h2
    decide
  exact ⟨hmap,
    c8_reconcile_idempotent [(("temp_1" : String), ("p1" : String))] hmap
      (some [cachedTempTask])⟩

/-! ## C9 -/

/-- C9 counterexample: when the `setItem` persisting the queue fails,
the `catch` in `addToOfflineQueue` logs the error and the call still resolves
normally — the caller is told nothing — and the stored queue does not
contain the new operation.  The enqueue "returns successfully" without the
updated queue having been persisted, contradicting the claim. -/
theorem c9_write_failure_swallowed :
    (addToOfflineQueue ⟨[], false, true⟩ deleteOpData 5).resolved = true ∧
    (addToOfflineQueue ⟨[], false, true⟩ deleteOpData 5).loggedError = true ∧
    (addToOfflineQueue ⟨[], false, true⟩ deleteOpData 5).storage.stored
      = [] :=
  ⟨rfl, rfl, rfl⟩

/-- C9 (amended): `addToOfflineQueue` always resolves successfully.  When
the persistence write fails the error is caught and logged and the storage
is left without the new operation — the failure is *not* surfaced to the
caller; only when the write succeeds is the appended queue persisted
before the call returns. -/
theorem c9_addToOfflineQueue_swallows_write_failure :
    (∀ (q : List PendingOperation) (rf : Bool) (d : OpData) (n : Nat),
        addToOfflineQueue ⟨q, rf, true⟩ d n
          = ⟨true, true, ⟨q, rf, true⟩⟩) ∧
    (∀ (q : List PendingOperation) (d : OpData) (n : Nat),
        addToOfflineQueue ⟨q, false, false⟩ d n
          = ⟨true, false, ⟨q ++ [⟨toString n, d, n⟩], false, false⟩⟩) :=
  ⟨fun _ _ _ _ => rfl, fun _ _ _ => rfl⟩
